import Mathlib

/-!
Verification of the market-faker repository's schema-mapping and synthetic
record generation pipeline, as a shallow embedding in Lean 4.

Source layout:
* `src/models/fake_financing.py` — embedded under namespace `FF`
* `src/models/trades.py`         — embedded under namespace `TR`
* `src/models/create_views.py`   — embedded under namespace `CV`

Modelling conventions:
* Python type annotations that flow through the type registries are an
  inductive `PyType`; `PyType.other s` stands for any Python type that is
  not one of the seven scalar kinds nor an `Optional` wrapper.
* `typing.get_origin` returns the `typing.Union` special form for
  `Optional[T]` (never the `typing.Optional` form itself); the inductive
  `Origin` distinguishes the two objects so that the source's
  `origin is Optional` comparison can be embedded literally.
* Python `date` values are days (an `Int` ordinal), `datetime` values are
  seconds (an `Int`); `timedelta` is a normalized (days, seconds) pair.
  `date` plus or minus `timedelta` uses only the `days` component (CPython:
  seconds and microseconds are ignored in date arithmetic).
* `random.choice`, `random.randint`, `Faker` draws and `float` arithmetic
  are modelled by draw oracles: structures of functions indexed by the row
  number, supplied as explicit parameters.  Post-rounding `float`/`Decimal`
  draws are carried as oracle-supplied `Rat` values; their numeric values
  are irrelevant to every property proved here.
* A `polars` DataFrame is a column-major record of lists (one list per
  column), matching the column-dict construction in the source.
* The ClickHouse client is a function `String → Except String Unit` from the
  SQL text of a command to either success or a raised exception, and the
  provisioning functions are embedded in the `Except` monad.
-/

/-- Abstract Python types that reach the type-mapping registries. -/
inductive PyType where
  | pystr : PyType
  | pyint : PyType
  | pyfloat : PyType
  | pybool : PyType
  | pydate : PyType
  | pydatetime : PyType
  | pydecimal : PyType
  | optional : PyType → PyType
  | other : String → PyType
deriving DecidableEq, Repr

/-- The two `typing` special-form objects the source's origin check can
compare against: `typing.Union` and `typing.Optional`. -/
inductive Origin where
  | union : Origin
  | optionalForm : Origin
deriving DecidableEq, Repr

/-- `typing.get_origin`: for `Optional[T]` (which Python represents as
`Union[T, None]`) it returns the `Union` special form; for a plain
(non-subscripted) type it returns `None`. -/
def pyGetOrigin : PyType → Option Origin
  | PyType.optional _ => some Origin.union
  | _ => none

/-- `typing.get_args(t)[0]` for an `Optional` type: its base type.  On any
other type the source never evaluates this expression; an arbitrary junk
value is returned there. -/
def pyGetArgsHead : PyType → PyType
  | PyType.optional t => t
  | _ => PyType.other "none"

/-- Debug name of a Python type, as printed by `print(base_type)`. -/
def pyTypeName : PyType → String
  | PyType.pystr => "str"
  | PyType.pyint => "int"
  | PyType.pyfloat => "float"
  | PyType.pybool => "bool"
  | PyType.pydate => "datetime.date"
  | PyType.pydatetime => "datetime.datetime"
  | PyType.pydecimal => "decimal.Decimal"
  | PyType.optional t => "typing.Optional[" ++ pyTypeName t ++ "]"
  | PyType.other s => s

/-- In-memory columnar (polars) type descriptors. -/
inductive PolarsType where
  | utf8 : PolarsType
  | int64 : PolarsType
  | float64 : PolarsType
  | boolean : PolarsType
  | pldate : PolarsType
  | pldatetime : PolarsType
  | decimal : Nat → Nat → PolarsType
  | decimal128 : Nat → Nat → PolarsType
deriving DecidableEq, Repr

namespace FF

/-- `PYTHON_TO_CLICKHOUSE_TYPE_MAP.get(t, "String")` of
`src/models/fake_financing.py` (lines 12-26): the dict enumerates the seven
scalar kinds and six `Optional[...]` keys; `.get` falls back to `"String"`
for any other key. -/
def pythonToClickhouseTypeMapGet : PyType → String
  | PyType.pystr => "String"
  | PyType.pyint => "Int64"
  | PyType.pyfloat => "Float64"
  | PyType.pybool => "UInt8"
  | PyType.pydate => "Date"
  | PyType.pydatetime => "DateTime"
  | PyType.pydecimal => "Decimal(38, 18)"
  | PyType.optional PyType.pyfloat => "Nullable(Float64)"
  | PyType.optional PyType.pyint => "Nullable(Int64)"
  | PyType.optional PyType.pystr => "Nullable(String)"
  | PyType.optional PyType.pydate => "Nullable(Date)"
  | PyType.optional PyType.pydatetime => "Nullable(DateTime)"
  | PyType.optional PyType.pydecimal => "Nullable(Decimal(38, 18))"
  | _ => "String"

/-- `PYTHON_TO_POLARS_TYPE_MAP.get(t, pl.Utf8)` of
`src/models/fake_financing.py` (lines 28-36): only the seven scalar kinds
are keys; the default is `pl.Utf8`. -/
def pythonToPolarsTypeMapGet : PyType → PolarsType
  | PyType.pystr => PolarsType.utf8
  | PyType.pyint => PolarsType.int64
  | PyType.pyfloat => PolarsType.float64
  | PyType.pybool => PolarsType.boolean
  | PyType.pydate => PolarsType.pldate
  | PyType.pydatetime => PolarsType.pldatetime
  | PyType.pydecimal => PolarsType.decimal 38 18
  | _ => PolarsType.utf8

/-- `get_clickhouse_type` of `src/models/fake_financing.py` (lines 38-56).
Returns the resolved descriptor together with the list of lines printed to
standard output (the branch body starts with `print(base_type)`).  The
`if origin is Optional:` test compares `get_origin`'s result against the
`typing.Optional` special form; if the test succeeds and no `elif` arm
matches the base type, control falls through to the final
`return PYTHON_TO_CLICKHOUSE_TYPE_MAP.get(python_type, "String")`. -/
def get_clickhouse_type (python_type : PyType) : String × List String :=
  match pyGetOrigin python_type with
  | some Origin.optionalForm =>
    let base_type := pyGetArgsHead python_type
    let printed := [pyTypeName base_type]
    match base_type with
    | PyType.pydecimal => ("Nullable(Decimal(38, 18))", printed)
    | PyType.pydate => ("Nullable(Date)", printed)
    | PyType.pydatetime => ("Nullable(DateTime)", printed)
    | PyType.pystr => ("Nullable(String)", printed)
    | PyType.pyint => ("Nullable(Int64)", printed)
    | PyType.pyfloat => ("Nullable(Float64)", printed)
    | _ => (pythonToClickhouseTypeMapGet python_type, printed)
  | _ => (pythonToClickhouseTypeMapGet python_type, [])

/-- `get_polars_type` of `src/models/fake_financing.py` (lines 58-65);
`src/models/trades.py` (lines 41-48) is textually identical. -/
def get_polars_type (python_type : PyType) : PolarsType :=
  match pyGetOrigin python_type with
  | some Origin.optionalForm =>
    let base_type := pyGetArgsHead python_type
    match base_type with
    | PyType.pydecimal => PolarsType.decimal128 38 18
    | _ => pythonToPolarsTypeMapGet base_type
  | _ => pythonToPolarsTypeMapGet python_type

/-- Key set of `PYTHON_TO_CLICKHOUSE_TYPE_MAP` in
`src/models/fake_financing.py`. -/
def inClickhouseRegistry : PyType → Bool
  | PyType.pystr | PyType.pyint | PyType.pyfloat | PyType.pybool
  | PyType.pydate | PyType.pydatetime | PyType.pydecimal
  | PyType.optional PyType.pyfloat | PyType.optional PyType.pyint
  | PyType.optional PyType.pystr | PyType.optional PyType.pydate
  | PyType.optional PyType.pydatetime
  | PyType.optional PyType.pydecimal => true
  | _ => false

end FF

namespace TR

/-- `PYTHON_TO_CLICKHOUSE_TYPE_MAP.get(t, default)` of
`src/models/trades.py` (lines 12-20): only the seven scalar kinds are keys
(no `Optional[...]` keys). -/
def pythonToClickhouseTypeMapGet (t : PyType) (dflt : String) : String :=
  match t with
  | PyType.pystr => "String"
  | PyType.pyint => "Int64"
  | PyType.pyfloat => "Float64"
  | PyType.pybool => "UInt8"
  | PyType.pydate => "Date"
  | PyType.pydatetime => "DateTime"
  | PyType.pydecimal => "Decimal(38, 18)"
  | _ => dflt

/-- `get_clickhouse_type` of `src/models/trades.py` (lines 32-39). -/
def get_clickhouse_type (python_type : PyType) : String :=
  match pyGetOrigin python_type with
  | some Origin.optionalForm =>
    let base_type := pyGetArgsHead python_type
    match base_type with
    | PyType.pydecimal => "Nullable(Decimal(38, 18))"
    | _ => "Nullable(" ++ pythonToClickhouseTypeMapGet base_type "String" ++ ")"
  | _ => pythonToClickhouseTypeMapGet python_type "String"

/-- Key set of `PYTHON_TO_CLICKHOUSE_TYPE_MAP` in `src/models/trades.py`. -/
def inClickhouseRegistry : PyType → Bool
  | PyType.pystr | PyType.pyint | PyType.pyfloat | PyType.pybool
  | PyType.pydate | PyType.pydatetime | PyType.pydecimal => true
  | _ => false

end TR

/-- `get_origin` never returns the `typing.Optional` special form: for
`Optional[T]` it returns `typing.Union`.  Hence the `if origin is Optional:`
branch in both resolvers is unreachable. -/
theorem pyGetOrigin_ne_optionalForm (t : PyType) :
    pyGetOrigin t ≠ some Origin.optionalForm := by
  cases t <;> simp [pyGetOrigin]

/-- **C1.** The claim fails on the code: because `get_origin(Optional[T])`
is `typing.Union` and never `typing.Optional`, the `Nullable` branch of both
resolvers is dead.  The `trades.py` registry has no `Optional` keys, so its
resolver returns the `"String"` fallback for `Optional[int]` even though it
resolves `int` to `"Int64"`; the `fake_financing.py` registry lacks an
`Optional[bool]` key, so that resolver returns `"String"` for
`Optional[bool]` even though it resolves `bool` to `"UInt8"`. -/
theorem c1_optional_resolution_fails_on_code :
    TR.get_clickhouse_type (PyType.optional PyType.pyint) = "String"
    ∧ TR.get_clickhouse_type PyType.pyint = "Int64"
    ∧ FF.get_clickhouse_type (PyType.optional PyType.pybool) = ("String", [])
    ∧ FF.get_clickhouse_type PyType.pybool = ("UInt8", []) :=
  ⟨rfl, rfl, rfl, rfl⟩

/-- **C4.** The claim fails on the code: the dead `Optional` branch means
`get_polars_type(Optional[Decimal])` falls through to the polars map, which
has no `Optional[Decimal]` key, so every field declared `Optional[Decimal]`
is carried in the in-memory batch under the `Utf8` (text) columnar type,
not `decimal(38,18)`. -/
theorem c4_optional_decimal_carried_as_utf8 :
    FF.get_polars_type (PyType.optional PyType.pydecimal) = PolarsType.utf8
    ∧ FF.pythonToPolarsTypeMapGet PyType.pydecimal = PolarsType.decimal 38 18 :=
  ⟨rfl, rfl⟩

/-- **C7.** The type resolvers are pure: in the embedding (which returns the
resolver's printed output explicitly) every call emits no output — the one
`print` in `fake_financing.py`'s `get_clickhouse_type` sits in the
unreachable `Optional` branch — and both resolvers are functions of their
argument alone, so equal inputs give equal outputs. -/
theorem c7_resolver_pure (t : PyType) :
    (FF.get_clickhouse_type t).2 = []
    ∧ (∀ s, s = t → FF.get_clickhouse_type s = FF.get_clickhouse_type t
        ∧ FF.get_polars_type s = FF.get_polars_type t
        ∧ TR.get_clickhouse_type s = TR.get_clickhouse_type t) := by
  refine ⟨?_, fun s hs => by rw [hs]; exact ⟨rfl, rfl, rfl⟩⟩
  cases t <;> rfl

/-- Witness for C7 at a concrete input. -/
theorem c7_resolver_pure_witness :
    (FF.get_clickhouse_type (PyType.optional PyType.pystr)).2 = [] :=
  (c7_resolver_pure (PyType.optional PyType.pystr)).1

/-- **C8 (counterexample).** The claim's warning clause fails at a concrete
unmapped type: the `fake_financing.py` resolver applied to the Python type
`list` returns the `"String"` fallback with an empty output — no warning is
printed. -/
theorem c8_fallback_is_silent_counterexample :
    (FF.get_clickhouse_type (PyType.other "list")).1 = "String"
    ∧ (FF.get_clickhouse_type (PyType.other "list")).2 = [] :=
  ⟨rfl, rfl⟩

/-- **C8 (amended).** For every abstract type not enumerated in the
type-mapping registry, the resolver returns the `"String"` fallback rather
than failing, but the fallback is silent: no warning is emitted. -/
theorem c8_unmapped_type_falls_back_to_string_silently (t : PyType) :
    (FF.inClickhouseRegistry t = false →
      FF.get_clickhouse_type t = ("String", []))
    ∧ (TR.inClickhouseRegistry t = false →
      TR.get_clickhouse_type t = "String") := by
  constructor
  · intro h
    cases t with
    | optional b =>
      have : FF.pythonToClickhouseTypeMapGet (PyType.optional b) = "String" := by
        cases b <;> simp_all [FF.inClickhouseRegistry, FF.pythonToClickhouseTypeMapGet]
      simp [FF.get_clickhouse_type, pyGetOrigin, this]
    | other s => rfl
    | _ => simp_all [FF.inClickhouseRegistry]
  · intro h
    cases t with
    | optional b => rfl
    | other s => rfl
    | _ => simp_all [TR.inClickhouseRegistry]

/-- Witness for C8's amended theorem at the Python type `list`. -/
theorem c8_unmapped_type_witness :
    FF.get_clickhouse_type (PyType.other "list") = ("String", [])
    ∧ TR.get_clickhouse_type (PyType.other "list") = "String" :=
  ⟨(c8_unmapped_type_falls_back_to_string_silently (PyType.other "list")).1 rfl,
   (c8_unmapped_type_falls_back_to_string_silently (PyType.other "list")).2 rfl⟩

/-- `f"DROP TABLE IF EXISTS {database}.{table_name}"`, identical in every
`create_clickhouse_table` of both model files. -/
def drop_table_query (database table_name : String) : String :=
  "DROP TABLE IF EXISTS " ++ database ++ "." ++ table_name

/-- Column name of a DDL field definition string `"name Type"`: the
characters before the first space, stripped of the backquotes that
`Counterparty.create_clickhouse_table` puts around names. -/
def ddlColumnName (s : String) : String :=
  String.mk ((s.toList.takeWhile (fun c => c ≠ ' ')).filter
    (fun c => c ≠ Char.ofNat 96))

namespace FF

/-- `Trade.model_fields` of `src/models/fake_financing.py` (lines 74-117),
in declaration order: field name and annotated Python type. -/
def trade_fields : List (String × PyType) :=
  [("asOfDate", PyType.pydate),
   ("jobId", PyType.optional PyType.pystr),
   ("snapId", PyType.optional PyType.pystr),
   ("id", PyType.pyint),
   ("version", PyType.pyint),
   ("tradeId", PyType.optional PyType.pystr),
   ("status", PyType.optional PyType.pystr),
   ("pts", PyType.optional PyType.pystr),
   ("hmsBook", PyType.optional PyType.pystr),
   ("portfolio", PyType.optional PyType.pystr),
   ("productType", PyType.optional PyType.pystr),
   ("productSubType", PyType.optional PyType.pystr),
   ("tradeDt", PyType.optional PyType.pydate),
   ("startDt", PyType.optional PyType.pydate),
   ("maturityDt", PyType.optional PyType.pydate),
   ("maturityIsOpen", PyType.optional PyType.pystr),
   ("executionDt", PyType.optional PyType.pydatetime),
   ("counterParty", PyType.optional PyType.pystr),
   ("treatsCode", PyType.optional PyType.pystr),
   ("traderName", PyType.optional PyType.pystr),
   ("projectName", PyType.optional PyType.pystr),
   ("qmlError", PyType.optional PyType.pystr),
   ("model", PyType.optional PyType.pystr),
   ("side", PyType.optional PyType.pystr),
   ("haircut", PyType.optional PyType.pyfloat),
   ("collatCurrency", PyType.optional PyType.pystr),
   ("settlementCurrency", PyType.optional PyType.pystr),
   ("collatId", PyType.optional PyType.pystr),
   ("collatDesc", PyType.optional PyType.pystr),
   ("collatNotional", PyType.optional PyType.pydecimal),
   ("collatType", PyType.optional PyType.pystr),
   ("fundingLegType", PyType.optional PyType.pystr),
   ("fundingLegNotional", PyType.optional PyType.pydecimal),
   ("fundingLegCurrency", PyType.optional PyType.pystr),
   ("fundingLegMargin", PyType.optional PyType.pydecimal),
   ("fundingLegFixingLabel", PyType.optional PyType.pystr),
   ("iaAmount", PyType.optional PyType.pydecimal),
   ("iaCcy", PyType.optional PyType.pystr),
   ("pxInception", PyType.optional PyType.pyfloat),
   ("pxInceptionClean", PyType.optional PyType.pyfloat),
   ("pxFactorInception", PyType.optional PyType.pyfloat),
   ("sideFactor", PyType.optional PyType.pyfloat),
   ("fxPair", PyType.optional PyType.pystr),
   ("fxPairFunding", PyType.optional PyType.pystr)]

/-- `Risk.model_fields` of `src/models/fake_financing.py` (lines 546-577). -/
def risk_fields : List (String × PyType) :=
  [("jobId", PyType.optional PyType.pystr),
   ("asOfDate", PyType.pydate),
   ("snapId", PyType.optional PyType.pystr),
   ("id", PyType.pyint),
   ("tradeId", PyType.optional PyType.pystr),
   ("counterParty", PyType.optional PyType.pystr),
   ("collatId", PyType.optional PyType.pystr),
   ("collatDesc", PyType.optional PyType.pystr),
   ("collatConcentration", PyType.optional PyType.pyfloat),
   ("collatName", PyType.optional PyType.pystr),
   ("collatTicker", PyType.optional PyType.pystr),
   ("collatIssuer", PyType.optional PyType.pystr),
   ("outstandingAmt", PyType.optional PyType.pydecimal),
   ("dtm", PyType.optional PyType.pystr),
   ("age", PyType.optional PyType.pystr),
   ("tenor", PyType.optional PyType.pystr),
   ("fxSpot", PyType.optional PyType.pyfloat),
   ("fxSpotFunding", PyType.optional PyType.pyfloat),
   ("fxSpotEOD", PyType.optional PyType.pyfloat),
   ("fundingAmount", PyType.optional PyType.pydecimal),
   ("collateralAmount", PyType.optional PyType.pydecimal),
   ("cashOut", PyType.optional PyType.pydecimal),
   ("accrualDaily", PyType.optional PyType.pydecimal),
   ("accrualProjected", PyType.optional PyType.pydecimal),
   ("accrualRealised", PyType.optional PyType.pydecimal),
   ("pxEOD", PyType.optional PyType.pydecimal),
   ("pxLast", PyType.optional PyType.pyfloat),
   ("realizedMarginCall", PyType.optional PyType.pyfloat),
   ("expectedMarginCall", PyType.optional PyType.pyfloat),
   ("financingExposure", PyType.optional PyType.pyfloat),
   ("calculatedAt", PyType.pydatetime),
   ("updatedAt", PyType.pydatetime)]

/-- `RiskMV.model_fields` of `src/models/fake_financing.py`
(lines 406-433). -/
def riskmv_fields : List (String × PyType) :=
  [("id", PyType.pystr),
   ("asOfDate", PyType.pydatetime),
   ("updatedAt", PyType.pydatetime),
   ("bu", PyType.optional PyType.pystr),
   ("sbu", PyType.optional PyType.pystr),
   ("portfolio", PyType.optional PyType.pystr),
   ("book", PyType.pystr),
   ("tradeId", PyType.optional PyType.pystr),
   ("ccy", PyType.optional PyType.pystr),
   ("tradeCcy", PyType.optional PyType.pystr),
   ("instrument", PyType.optional PyType.pystr),
   ("tradeStatus", PyType.optional PyType.pyint),
   ("version", PyType.optional PyType.pyfloat),
   ("cashOut", PyType.optional PyType.pyfloat),
   ("projectedCashOut", PyType.optional PyType.pyfloat),
   ("realisedCashOut", PyType.optional PyType.pyfloat),
   ("notional", PyType.optional PyType.pyfloat),
   ("vcProduct", PyType.optional PyType.pystr),
   ("vcProductGroup", PyType.optional PyType.pystr),
   ("counterparty", PyType.optional PyType.pystr),
   ("obligor", PyType.optional PyType.pystr),
   ("tradeDate", PyType.optional PyType.pydate),
   ("startDate", PyType.optional PyType.pydate),
   ("maturityDate", PyType.optional PyType.pydate),
   ("underlyingCcy", PyType.optional PyType.pyfloat),
   ("underlyingAmount", PyType.optional PyType.pystr),
   ("calculatedAt", PyType.pydatetime)]

/-- `PnLEod.model_fields` of `src/models/fake_financing.py`
(lines 309-321). -/
def pnleod_fields : List (String × PyType) :=
  [("id", PyType.pystr),
   ("asOfDate", PyType.pydatetime),
   ("updatedAt", PyType.pydatetime),
   ("bu", PyType.optional PyType.pystr),
   ("sbu", PyType.optional PyType.pystr),
   ("portfolio", PyType.optional PyType.pystr),
   ("book", PyType.pystr),
   ("YTD", PyType.optional PyType.pyfloat),
   ("MTD", PyType.optional PyType.pyfloat),
   ("DTD", PyType.optional PyType.pyfloat),
   ("AOP", PyType.optional PyType.pyfloat),
   ("PPNL", PyType.optional PyType.pyfloat),
   ("calculatedAt", PyType.pydatetime)]

/-- `Counterparty.model_fields` of `src/models/fake_financing.py`
(lines 688-699). -/
def counterparty_fields : List (String × PyType) :=
  [("name", PyType.pystr),
   ("shortName", PyType.optional PyType.pystr),
   ("type", PyType.optional PyType.pystr),
   ("region", PyType.optional PyType.pystr),
   ("country", PyType.optional PyType.pystr),
   ("sector", PyType.optional PyType.pystr),
   ("industry", PyType.optional PyType.pystr),
   ("rating", PyType.optional PyType.pystr),
   ("ratingAgency", PyType.optional PyType.pystr),
   ("lei", PyType.optional PyType.pystr),
   ("status", PyType.optional PyType.pystr),
   ("updatedAt", PyType.pydatetime)]

/-- `Instrument.model_fields` of `src/models/fake_financing.py`
(lines 781-786). -/
def instrument_fields : List (String × PyType) :=
  [("id", PyType.pystr),
   ("type", PyType.optional PyType.pystr),
   ("name", PyType.optional PyType.pystr),
   ("description", PyType.optional PyType.pystr),
   ("status", PyType.optional PyType.pystr),
   ("updatedAt", PyType.pydatetime)]

/-- `HmsBook.model_fields` of `src/models/fake_financing.py`
(lines 843-845). -/
def hmsbook_fields : List (String × PyType) :=
  [("name", PyType.pystr),
   ("desk", PyType.pystr),
   ("updatedAt", PyType.pydatetime)]

/-- `", ".join(order_by)` — the ORDER BY clause builder used by every
`create_clickhouse_table` except `Counterparty`'s. -/
def order_by_clause (order_by : List String) : String :=
  String.intercalate ", " order_by

/-- `", ".join(f"`{field}`" for field in order_by)` —
`Counterparty.create_clickhouse_table`'s backquoting variant. -/
def cp_order_by_clause (order_by : List String) : String :=
  String.intercalate ", " (order_by.map (fun f => "`" ++ f ++ "`"))

/-- The `field_definitions` list built by a `create_clickhouse_table` loop:
`f"{field_name} {clickhouse_type}"` per model field. -/
def field_definitions (fields : List (String × PyType)) : List String :=
  fields.map (fun p => p.1 ++ " " ++ (get_clickhouse_type p.2).1)

/-- `Counterparty.create_clickhouse_table`'s variant with backquoted
field names: `f"`{field_name}` {clickhouse_type}"`. -/
def cp_field_definitions (fields : List (String × PyType)) : List String :=
  fields.map (fun p => "`" ++ p.1 ++ "` " ++ (get_clickhouse_type p.2).1)

/-- The dataframe schema dict built by every generator:
`{field_name: get_polars_type(field_type) for ... in cls.model_fields}`. -/
def polars_schema (fields : List (String × PyType)) : List (String × PolarsType) :=
  fields.map (fun p => (p.1, get_polars_type p.2))

/-- `Trade.create_clickhouse_table`'s CREATE TABLE statement
(`src/models/fake_financing.py` lines 152-157). -/
def trade_create_table_query (database table_name : String)
    (order_by : List String) : String :=
  "\n        CREATE TABLE IF NOT EXISTS " ++ database ++ "." ++ table_name ++
  " (\n            " ++
  String.intercalate ",\n    " (field_definitions trade_fields) ++
  "\n        ) ENGINE = ReplacingMergeTree(version)\n        ORDER BY (" ++
  order_by_clause order_by ++ ");\n        "

/-- `Risk.create_clickhouse_table`'s CREATE TABLE statement
(`src/models/fake_financing.py` lines 612-617). -/
def risk_create_table_query (database table_name : String)
    (order_by : List String) : String :=
  "\n        CREATE TABLE IF NOT EXISTS " ++ database ++ "." ++ table_name ++
  " (\n            " ++
  String.intercalate ",\n    " (field_definitions risk_fields) ++
  "\n        ) ENGINE = ReplacingMergeTree(calculatedAt)\n        ORDER BY (" ++
  order_by_clause order_by ++ ");\n        "

/-- `RiskMV.create_clickhouse_table`'s CREATE TABLE statement
(`src/models/fake_financing.py` lines 469-474). -/
def riskmv_create_table_query (database table_name : String)
    (order_by : List String) : String :=
  "\n            CREATE TABLE IF NOT EXISTS " ++ database ++ "." ++ table_name ++
  " (\n                " ++
  String.intercalate ",\n    " (field_definitions riskmv_fields) ++
  "\n            ) ENGINE = ReplacingMergeTree(calculatedAt)\n            ORDER BY (" ++
  order_by_clause order_by ++ ");\n            "

/-- `PnLEod.create_clickhouse_table`'s CREATE TABLE statement
(`src/models/fake_financing.py` lines 357-362). -/
def pnleod_create_table_query (database table_name : String)
    (order_by : List String) : String :=
  "\n            CREATE TABLE IF NOT EXISTS " ++ database ++ "." ++ table_name ++
  " (\n                " ++
  String.intercalate ",\n    " (field_definitions pnleod_fields) ++
  "\n            ) ENGINE = ReplacingMergeTree(calculatedAt)\n            ORDER BY (" ++
  order_by_clause order_by ++ ");\n            "

/-- `Counterparty.create_clickhouse_table`'s CREATE TABLE statement
(`src/models/fake_financing.py` lines 728-733). -/
def counterparty_create_table_query (database table_name : String)
    (order_by : List String) : String :=
  "\n        CREATE TABLE IF NOT EXISTS " ++ database ++ "." ++ table_name ++
  " (\n            " ++
  String.intercalate ",\n    " (cp_field_definitions counterparty_fields) ++
  "\n        ) ENGINE = ReplacingMergeTree(updatedAt)\n        ORDER BY (" ++
  cp_order_by_clause order_by ++ ");\n        "

/-- `Instrument.create_clickhouse_table`'s CREATE TABLE statement
(`src/models/fake_financing.py` lines 804-809). -/
def instrument_create_table_query (database table_name : String)
    (order_by : List String) : String :=
  "\n        CREATE TABLE IF NOT EXISTS " ++ database ++ "." ++ table_name ++
  " (\n            " ++
  String.intercalate ",\n    " (field_definitions instrument_fields) ++
  "\n        ) ENGINE = ReplacingMergeTree(updatedAt)\n        ORDER BY (" ++
  order_by_clause order_by ++ ");\n        "

/-- `HmsBook.create_clickhouse_table`'s CREATE TABLE statement
(`src/models/fake_financing.py` lines 863-868). -/
def hmsbook_create_table_query (database table_name : String)
    (order_by : List String) : String :=
  "\n        CREATE TABLE IF NOT EXISTS " ++ database ++ "." ++ table_name ++
  " (\n            " ++
  String.intercalate ",\n    " (field_definitions hmsbook_fields) ++
  "\n        ) ENGINE = ReplacingMergeTree(updatedAt)\n        ORDER BY (" ++
  order_by_clause order_by ++ ");\n        "

end FF

namespace TR

/-- `Trade.model_fields` of `src/models/trades.py` (lines 89-131): the same
fields as the `fake_financing.py` Trade except that `portfolio` is absent. -/
def trade_fields : List (String × PyType) :=
  FF.trade_fields.filter (fun p => p.1 ≠ "portfolio")

/-- The `field_definitions` list of `Trade.create_clickhouse_table` in
`src/models/trades.py` (lines 152-157), typed by this file's own resolver. -/
def field_definitions (fields : List (String × PyType)) : List String :=
  fields.map (fun p => p.1 ++ " " ++ get_clickhouse_type p.2)

/-- Dataframe schema dict of `src/models/trades.py` (lines 300-301). -/
def polars_schema (fields : List (String × PyType)) : List (String × PolarsType) :=
  fields.map (fun p => (p.1, FF.get_polars_type p.2))

/-- `Trade.create_clickhouse_table`'s CREATE TABLE statement
(`src/models/trades.py` lines 166-171). -/
def trade_create_table_query (database table_name : String)
    (order_by : List String) : String :=
  "\n        CREATE TABLE IF NOT EXISTS " ++ database ++ "." ++ table_name ++
  " (\n            " ++
  String.intercalate ",\n    " (field_definitions trade_fields) ++
  "\n        ) ENGINE = ReplacingMergeTree(version)\n        ORDER BY (" ++
  FF.order_by_clause order_by ++ ");\n        "

end TR

set_option maxRecDepth 40000

/-- **C5.** For every entity, the DDL column list built by
`create_clickhouse_table` and the dataframe schema built in the generator
both list exactly the entity's declared field names in declaration order
(hence the DDL column order equals the generator output's column order). -/
theorem c5_schema_extraction_preserves_declared_field_order :
    (FF.field_definitions FF.trade_fields).map ddlColumnName
        = FF.trade_fields.map Prod.fst
    ∧ (FF.polars_schema FF.trade_fields).map Prod.fst
        = FF.trade_fields.map Prod.fst
    ∧ (FF.field_definitions FF.risk_fields).map ddlColumnName
        = FF.risk_fields.map Prod.fst
    ∧ (FF.polars_schema FF.risk_fields).map Prod.fst
        = FF.risk_fields.map Prod.fst
    ∧ (FF.field_definitions FF.riskmv_fields).map ddlColumnName
        = FF.riskmv_fields.map Prod.fst
    ∧ (FF.polars_schema FF.riskmv_fields).map Prod.fst
        = FF.riskmv_fields.map Prod.fst
    ∧ (FF.field_definitions FF.pnleod_fields).map ddlColumnName
        = FF.pnleod_fields.map Prod.fst
    ∧ (FF.polars_schema FF.pnleod_fields).map Prod.fst
        = FF.pnleod_fields.map Prod.fst
    ∧ (FF.cp_field_definitions FF.counterparty_fields).map ddlColumnName
        = FF.counterparty_fields.map Prod.fst
    ∧ (FF.polars_schema FF.counterparty_fields).map Prod.fst
        = FF.counterparty_fields.map Prod.fst
    ∧ (FF.field_definitions FF.instrument_fields).map ddlColumnName
        = FF.instrument_fields.map Prod.fst
    ∧ (FF.polars_schema FF.instrument_fields).map Prod.fst
        = FF.instrument_fields.map Prod.fst
    ∧ (FF.field_definitions FF.hmsbook_fields).map ddlColumnName
        = FF.hmsbook_fields.map Prod.fst
    ∧ (FF.polars_schema FF.hmsbook_fields).map Prod.fst
        = FF.hmsbook_fields.map Prod.fst
    ∧ (TR.field_definitions TR.trade_fields).map ddlColumnName
        = TR.trade_fields.map Prod.fst
    ∧ (TR.polars_schema TR.trade_fields).map Prod.fst
        = TR.trade_fields.map Prod.fst :=
  ⟨rfl, rfl, rfl, rfl, rfl, rfl, rfl, rfl, rfl, rfl, rfl, rfl, rfl, rfl,
   rfl, rfl⟩

/-- **C6.** Each entity's CREATE TABLE statement (at its default table
name, database and ordering key) uses the `ReplacingMergeTree` dedup-merge
engine parameterized by exactly its designated discriminant field:
`version` for Trade (both files), `calculatedAt` for Risk/RiskMV/PnLEod,
and `updatedAt` for Counterparty/Instrument/HmsBook. -/
theorem c6_dedup_engine_discriminant_per_entity :
    (∃ a b, FF.trade_create_table_query "default" "trades_f" ["asOfDate", "id"]
        = a ++ "ENGINE = ReplacingMergeTree(version)" ++ b)
    ∧ (∃ a b, FF.risk_create_table_query "default" "risk_f" ["asOfDate", "id"]
        = a ++ "ENGINE = ReplacingMergeTree(calculatedAt)" ++ b)
    ∧ (∃ a b, FF.riskmv_create_table_query "default" "risk_f_mv" ["asOfDate", "id"]
        = a ++ "ENGINE = ReplacingMergeTree(calculatedAt)" ++ b)
    ∧ (∃ a b, FF.pnleod_create_table_query "default" "pnl_eod" ["asOfDate", "id"]
        = a ++ "ENGINE = ReplacingMergeTree(calculatedAt)" ++ b)
    ∧ (∃ a b, FF.counterparty_create_table_query "default" "counterparty_f" ["name"]
        = a ++ "ENGINE = ReplacingMergeTree(updatedAt)" ++ b)
    ∧ (∃ a b, FF.instrument_create_table_query "default" "instrument_f" ["id"]
        = a ++ "ENGINE = ReplacingMergeTree(updatedAt)" ++ b)
    ∧ (∃ a b, FF.hmsbook_create_table_query "default" "hmsbook_f" ["name"]
        = a ++ "ENGINE = ReplacingMergeTree(updatedAt)" ++ b)
    ∧ (∃ a b, TR.trade_create_table_query "default" "trades_f" ["asOfDate", "id"]
        = a ++ "ENGINE = ReplacingMergeTree(version)" ++ b) :=
  ⟨⟨"\n        CREATE TABLE IF NOT EXISTS default.trades_f (\n            " ++
      String.intercalate ",\n    " (FF.field_definitions FF.trade_fields) ++
      "\n        ) ", "\n        ORDER BY (asOfDate, id);\n        ", rfl⟩,
   ⟨"\n        CREATE TABLE IF NOT EXISTS default.risk_f (\n            " ++
      String.intercalate ",\n    " (FF.field_definitions FF.risk_fields) ++
      "\n        ) ", "\n        ORDER BY (asOfDate, id);\n        ", rfl⟩,
   ⟨"\n            CREATE TABLE IF NOT EXISTS default.risk_f_mv (\n                " ++
      String.intercalate ",\n    " (FF.field_definitions FF.riskmv_fields) ++
      "\n            ) ", "\n            ORDER BY (asOfDate, id);\n            ", rfl⟩,
   ⟨"\n            CREATE TABLE IF NOT EXISTS default.pnl_eod (\n                " ++
      String.intercalate ",\n    " (FF.field_definitions FF.pnleod_fields) ++
      "\n            ) ", "\n            ORDER BY (asOfDate, id);\n            ", rfl⟩,
   ⟨"\n        CREATE TABLE IF NOT EXISTS default.counterparty_f (\n            " ++
      String.intercalate ",\n    " (FF.cp_field_definitions FF.counterparty_fields) ++
      "\n        ) ", "\n        ORDER BY (`name`);\n        ", rfl⟩,
   ⟨"\n        CREATE TABLE IF NOT EXISTS default.instrument_f (\n            " ++
      String.intercalate ",\n    " (FF.field_definitions FF.instrument_fields) ++
      "\n        ) ", "\n        ORDER BY (id);\n        ", rfl⟩,
   ⟨"\n        CREATE TABLE IF NOT EXISTS default.hmsbook_f (\n            " ++
      String.intercalate ",\n    " (FF.field_definitions FF.hmsbook_fields) ++
      "\n        ) ", "\n        ORDER BY (name);\n        ", rfl⟩,
   ⟨"\n        CREATE TABLE IF NOT EXISTS default.trades_f (\n            " ++
      String.intercalate ",\n    " (TR.field_definitions TR.trade_fields) ++
      "\n        ) ", "\n        ORDER BY (asOfDate, id);\n        ", rfl⟩⟩

/-- The ClickHouse client: `client.command(query)` either succeeds or
raises an exception (whose payload is opaque here). -/
def CHClient : Type := String → Except String Unit

namespace FF

/-- `Risk.create_clickhouse_table` of `src/models/fake_financing.py`
(lines 579-619): optionally drop, then create; both through
`client.command`, with no exception handling. -/
def risk_create_clickhouse_table (client : CHClient) (table_name : String)
    (database : String) (drop_existing : Bool) (order_by : List String) :
    Except String Unit := do
  if drop_existing then
    client (drop_table_query database table_name)
  client (risk_create_table_query database table_name order_by)

end FF

namespace TR

/-- `Trade.create_clickhouse_table` of `src/models/trades.py`
(lines 134-173): optionally drop, then create; no exception handling. -/
def trade_create_clickhouse_table (client : CHClient) (table_name : String)
    (database : String) (drop_existing : Bool) (order_by : List String) :
    Except String Unit := do
  if drop_existing then
    client (drop_table_query database table_name)
  client (trade_create_table_query database table_name order_by)

end TR

namespace CV

/-- `drop_view_query` of `src/models/create_views.py` (line 15). -/
def drop_view_query : String := "DROP TABLE IF EXISTS risk_f_mv"

/-- `create_view_query` of `src/models/create_views.py` (lines 17-126);
its full SQL text is irrelevant to the propagation contract and is kept as
an abbreviated constant here. -/
def create_view_query : String :=
  "\n        CREATE MATERIALIZED VIEW risk_f_mv\n        ENGINE = " ++
  "ReplacingMergeTree(calculatedAt)\n        PRIMARY KEY (r.asOfDate, r.id)" ++
  "\n        ORDER BY (r.asOfDate, r.id)\n        AS\n        SELECT ... " ++
  "FROM risk_f AS r\n        LEFT JOIN trades_f AS t ON r.id = t.id\n" ++
  "        LEFT JOIN counterparty_f AS cp ON r.counterParty = cp.name\n" ++
  "        LEFT JOIN instrument_f AS i ON r.collatId = i.id\n" ++
  "        LEFT JOIN hmsbook_f AS h ON t.hmsBook = h.name\n    "

/-- `create_risk_materialized_view` of `src/models/create_views.py`
(lines 5-134): runs the drop then the create inside a `try`; on success it
prints a confirmation, on failure it prints the error message and
re-raises the same exception (`raise` with no argument).  Returns the
outcome together with the printed lines. -/
def create_risk_materialized_view (client : CHClient) :
    Except String Unit × List String :=
  match (do client drop_view_query; client create_view_query :
      Except String Unit) with
  | Except.ok _ =>
    (Except.ok (), ["Materialized view 'risk_f_mv' created successfully"])
  | Except.error e =>
    (Except.error e, ["Error creating materialized view: " ++ e])

end CV

/-- **C9.** DDL errors propagate to the caller unmodified: any error
returned by a provisioning or view-creation operation is exactly an error
the client raised on one of its queries (nothing is swallowed or
transformed), and an error raised by the client on a query that runs
surfaces as the operation's result — for the view creation, after the
error is reported, the very same exception is re-raised. -/
theorem c9_ddl_errors_propagate_unmodified (client : CHClient) (e : String)
    (table_name database : String) (drop_existing : Bool)
    (order_by : List String) :
    (FF.risk_create_clickhouse_table client table_name database drop_existing
        order_by = Except.error e →
      client (drop_table_query database table_name) = Except.error e
      ∨ client (FF.risk_create_table_query database table_name order_by)
          = Except.error e)
    ∧ (client (drop_table_query database table_name) = Except.error e →
      FF.risk_create_clickhouse_table client table_name database true order_by
        = Except.error e)
    ∧ (client (FF.risk_create_table_query database table_name order_by)
          = Except.error e →
      client (drop_table_query database table_name) = Except.ok () →
      FF.risk_create_clickhouse_table client table_name database drop_existing
        order_by = Except.error e)
    ∧ (TR.trade_create_clickhouse_table client table_name database
        drop_existing order_by = Except.error e →
      client (drop_table_query database table_name) = Except.error e
      ∨ client (TR.trade_create_table_query database table_name order_by)
          = Except.error e)
    ∧ (client (drop_table_query database table_name) = Except.error e →
      TR.trade_create_clickhouse_table client table_name database true order_by
        = Except.error e)
    ∧ ((CV.create_risk_materialized_view client).1 = Except.error e →
      client CV.drop_view_query = Except.error e
      ∨ client CV.create_view_query = Except.error e)
    ∧ (client CV.drop_view_query = Except.ok () →
      client CV.create_view_query = Except.error e →
      (CV.create_risk_materialized_view client).1 = Except.error e) := by
  refine ⟨?_, ?_, ?_, ?_, ?_, ?_, ?_⟩
  · intro h
    unfold FF.risk_create_clickhouse_table at h
    cases drop_existing with
    | false =>
      simp only [if_neg Bool.false_ne_true, bind, Except.bind] at h
      exact Or.inr h
    | true =>
      simp only [if_pos rfl, bind, Except.bind] at h
      cases hd : client (drop_table_query database table_name) with
      | error e1 => rw [hd] at h; exact Or.inl (by simpa using h)
      | ok u => rw [hd] at h; cases u; exact Or.inr h
  · intro h
    simp [FF.risk_create_clickhouse_table, bind, Except.bind, h]
  · intro hc hd
    unfold FF.risk_create_clickhouse_table
    cases drop_existing with
    | false => simpa [bind, Except.bind] using hc
    | true => simp only [if_pos rfl, bind, Except.bind, hd]; exact hc
  · intro h
    unfold TR.trade_create_clickhouse_table at h
    cases drop_existing with
    | false =>
      simp only [if_neg Bool.false_ne_true, bind, Except.bind] at h
      exact Or.inr h
    | true =>
      simp only [if_pos rfl, bind, Except.bind] at h
      cases hd : client (drop_table_query database table_name) with
      | error e1 => rw [hd] at h; exact Or.inl (by simpa using h)
      | ok u => rw [hd] at h; cases u; exact Or.inr h
  · intro h
    simp [TR.trade_create_clickhouse_table, bind, Except.bind, h]
  · intro h
    cases hd : client CV.drop_view_query with
    | error e1 =>
      simp [CV.create_risk_materialized_view, bind, Except.bind, hd] at h
      exact Or.inl (by rw [h])
    | ok u =>
      cases u
      cases hc : client CV.create_view_query with
      | error e2 =>
        simp [CV.create_risk_materialized_view, bind, Except.bind, hd, hc] at h
        exact Or.inr (by rw [h])
      | ok v =>
        cases v
        simp [CV.create_risk_materialized_view, bind, Except.bind, hd, hc] at h
  · intro hd hc
    unfold CV.create_risk_materialized_view
    simp only [bind, Except.bind, hd, hc]

/-- Witness for C9: a client that raises on every command makes the
provisioning functions and the view creation return that very error. -/
theorem c9_ddl_errors_propagate_witness :
    FF.risk_create_clickhouse_table (fun _ => Except.error "boom") "risk_f"
      "default" true ["asOfDate", "id"] = Except.error "boom" :=
  (c9_ddl_errors_propagate_unmodified (fun _ => Except.error "boom") "boom"
    "risk_f" "default" true ["asOfDate", "id"]).2.1 rfl

/-- Python `date`: a day ordinal. -/
abbrev PyDate := Int

/-- Python `datetime`: seconds since an arbitrary epoch. -/
abbrev PyDateTime := Int

/-- Python `timedelta`, normalized to whole days plus leftover seconds. -/
structure PyTimedelta where
  days : Int
  seconds : Int
deriving Repr, DecidableEq

/-- `timedelta(days=k)` for a non-negative draw. -/
def timedelta_days (k : Nat) : PyTimedelta := ⟨(k : Int), 0⟩

/-- `timedelta(minutes=m)` for a non-negative draw: normalization carries
whole days out of the seconds component. -/
def timedelta_minutes (m : Nat) : PyTimedelta :=
  ⟨((m * 60) / 86400 : Nat), ((m * 60) % 86400 : Nat)⟩

/-- `timedelta(hours=h, minutes=m)` for non-negative draws. -/
def timedelta_hm (h m : Nat) : PyTimedelta :=
  ⟨((h * 3600 + m * 60) / 86400 : Nat), ((h * 3600 + m * 60) % 86400 : Nat)⟩

/-- `date - timedelta` (CPython): only the day component of the delta
counts; seconds and microseconds are ignored. -/
def date_sub_td (d : PyDate) (td : PyTimedelta) : PyDate := d - td.days

/-- `date + timedelta` (CPython): likewise ignores the seconds. -/
def date_add_td (d : PyDate) (td : PyTimedelta) : PyDate := d + td.days

/-- `datetime.combine(d, datetime.min.time())`: midnight of day `d`. -/
def datetime_combine_min (d : PyDate) : PyDateTime := d * 86400

/-- `datetime + timedelta`: full-resolution arithmetic. -/
def datetime_add_td (t : PyDateTime) (td : PyTimedelta) : PyDateTime :=
  t + td.days * 86400 + td.seconds

/-- `datetime - timedelta`: full-resolution arithmetic. -/
def datetime_sub_td (t : PyDateTime) (td : PyTimedelta) : PyDateTime :=
  t - (td.days * 86400 + td.seconds)

/-- `random.randint(a, b)` (both ends inclusive), driven by an arbitrary
oracle draw `k`. -/
def randint (a b k : Nat) : Nat := a + k % (b - a + 1)

/-- `random.choice(xs)`, driven by an arbitrary oracle draw `k`; on a
non-empty list it returns the element at index `k % xs.length` (every index
is reachable).  The source never applies it to an empty list; the junk
default `dflt` covers that unreachable case. -/
def pychoice {α : Type} (xs : List α) (dflt : α) (k : Nat) : α :=
  xs.getD (k % xs.length) dflt

/-- `pl.concat([df] * n, how="vertical")` acts column-wise as `n` vertical
copies of each column. -/
def rep_col {α : Type} (n : Nat) (c : List α) : List α :=
  List.flatten (List.replicate n c)

namespace FF

/-- The columns of a counterparty reference DataFrame that
`Trade.generate_random_trades_df` reads. -/
structure CounterpartyDF where
  name : List String

/-- The columns of an instrument reference DataFrame that
`Trade.generate_random_trades_df` reads. -/
structure InstrumentDF where
  id : List String
  name : List String

/-- The columns of a books reference DataFrame that
`Trade.generate_random_trades_df` reads. -/
structure BooksDF where
  name : List String

/-- Draw oracle for `Trade.generate_random_trades_df`: one function per
random/Faker draw site, indexed by the row number, plus the date-formatting
collaborators (`strftime`) and `date.today()`. -/
structure TradeEnv where
  today : PyDate
  uuid : Nat → String
  uniqueId : Nat → Nat
  tradeIdNum : Nat → Nat
  treatsNum : Nat → Nat
  projNum : Nat → Nat
  lastName : Nat → String
  projectLow : Nat → Bool
  statusK : Nat → Nat
  ptsK : Nat → Nat
  bookK : Nat → Nat
  productTypeK : Nat → Nat
  productSubK : Nat → Nat
  maturityOpenK : Nat → Nat
  portfolioK : Nat → Nat
  cpK : Nat → Nat
  instK : Nat → Nat
  collatCcyK : Nat → Nat
  settleCcyK : Nat → Nat
  collatTypeK : Nat → Nat
  fundingTypeK : Nat → Nat
  fundingCcyK : Nat → Nat
  fxPairK : Nat → Nat
  fxPairFundingK : Nat → Nat
  tradeDtDaysK : Nat → Nat
  maturityDaysK : Nat → Nat
  execHoursK : Nat → Nat
  execMinutesK : Nat → Nat
  haircutV : Nat → Rat
  collatNotionalV : Nat → Rat
  fundingNotionalV : Nat → Rat
  fundingMarginV : Nat → Rat
  pxInceptionV : Nat → Rat
  pxInceptionCleanV : Nat → Rat
  fmtYmdDash : PyDate → String
  fmtYmd : PyDate → String
  fmtDT : PyDateTime → String

/-- The column dict built by `Trade.generate_random_trades_df`
(`src/models/fake_financing.py` lines 196-297), in the dict's key order.
String-typed date fields hold `strftime` output; post-rounding float and
`Decimal(str(round(...)))` values are the oracle's `Rat` draws. -/
structure TradeCols where
  asOfDate : List PyDate
  jobId : List String
  snapId : List String
  id : List Nat
  version : List Nat
  tradeId : List String
  status : List String
  pts : List String
  hmsBook : List String
  productType : List String
  productSubType : List String
  tradeDt : List String
  startDt : List String
  maturityDt : List String
  maturityIsOpen : List String
  executionDt : List String
  counterParty : List String
  treatsCode : List String
  portfolio : List String
  traderName : List String
  projectName : List (Option String)
  qmlError : List (Option String)
  model : List (Option String)
  side : List (Option String)
  haircut : List Rat
  collatCurrency : List String
  settlementCurrency : List String
  collatId : List String
  collatDesc : List String
  collatNotional : List Rat
  collatType : List String
  fundingLegType : List String
  fundingLegNotional : List Rat
  fundingLegCurrency : List String
  fundingLegMargin : List Rat
  fundingLegFixingLabel : List (Option String)
  iaAmount : List (Option Rat)
  iaCcy : List (Option String)
  pxInception : List Rat
  pxInceptionClean : List Rat
  pxFactorInception : List (Option Rat)
  sideFactor : List Rat
  fxPair : List String
  fxPairFunding : List String

/-- `Trade.generate_random_trades_df` of `src/models/fake_financing.py`
(lines 163-301): reference lists are extracted from the supplied
DataFrames (with the `DEFAULT_*` singletons when a DataFrame is absent),
and the per-iteration loop body appending one value to each column is
transposed into one `List.range`-map per column. -/
def generate_random_trades_df (env : TradeEnv) (num_records : Nat)
    (counterparty_df : Option CounterpartyDF)
    (instrument_df : Option InstrumentDF)
    (books_df : Option BooksDF) : TradeCols :=
  let counterparty_list := match counterparty_df with
    | some df => df.name
    | none => ["DEFAULT_CP"]
  let instrument_pairs := match instrument_df with
    | some df => df.id.zip df.name
    | none => [("DEFAULT_ID", "DEFAULT_NAME")]
  let books_list := match books_df with
    | some df => df.name
    | none => ["DEFAULT_BOOK"]
  let status_options := ["NEW", "PENDING", "COMPLETED", "CANCELLED"]
  let product_types := ["COLLATERAL", "SWAP", "FUTURE", "OPTION"]
  let product_subtypes := ["CLR", "STD", "FWD"]
  let currencies := ["USD", "EUR", "GBP", "JPY"]
  let books := books_list
  let collat_types := ["EURABS", "USABS", "GOVTBOND"]
  let funding_leg_types := ["fixedRate", "floatingRate"]
  let fx_pairs := ["USDEUR", "USDJPY", "EURGBP", "EURUSD"]
  let portfolios := ["PORT_1", "PORT_2", "PORT_3", "PORT_4"]
  let base_date := env.today
  let trade_date := fun i =>
    date_sub_td base_date (timedelta_days (randint 0 365 (env.tradeDtDaysK i)))
  let maturity_date := fun i =>
    date_add_td (trade_date i) (timedelta_days (randint 30 1825 (env.maturityDaysK i)))
  let execution_time := fun i =>
    datetime_add_td (datetime_combine_min (trade_date i))
      (timedelta_hm (randint 8 16 (env.execHoursK i)) (randint 0 59 (env.execMinutesK i)))
  let instPair := fun i => pychoice instrument_pairs ("", "") (env.instK i)
  let rng := List.range num_records
  { asOfDate := rng.map (fun _ => base_date)
    jobId := rng.map (fun i => env.uuid i)
    snapId := rng.map (fun _ => "REPO:" ++ env.fmtYmd base_date)
    id := rng.map (fun i => env.uniqueId i)
    version := rng.map (fun _ => 0)
    tradeId := rng.map (fun i => toString (env.tradeIdNum i))
    status := rng.map (fun i => pychoice status_options "" (env.statusK i))
    pts := rng.map (fun i => pychoice ["MARTINI", "MANHATTAN", "MOJITO"] "" (env.ptsK i))
    hmsBook := rng.map (fun i => pychoice books "" (env.bookK i))
    productType := rng.map (fun i => pychoice product_types "" (env.productTypeK i))
    productSubType := rng.map (fun i => pychoice product_subtypes "" (env.productSubK i))
    tradeDt := rng.map (fun i => env.fmtYmdDash (trade_date i))
    startDt := rng.map (fun i => env.fmtYmdDash (trade_date i))
    maturityDt := rng.map (fun i => env.fmtYmdDash (maturity_date i))
    maturityIsOpen := rng.map (fun i =>
      if pychoice [true, false] true (env.maturityOpenK i) then "true" else "false")
    executionDt := rng.map (fun i => env.fmtDT (execution_time i))
    counterParty := rng.map (fun i => pychoice counterparty_list "" (env.cpK i))
    treatsCode := rng.map (fun i => "TC" ++ toString (env.treatsNum i))
    portfolio := rng.map (fun i => pychoice portfolios "" (env.portfolioK i))
    traderName := rng.map (fun i => (env.lastName i).toUpper)
    projectName := rng.map (fun i =>
      if env.projectLow i then none else some ("PROJ_" ++ toString (env.projNum i)))
    qmlError := rng.map (fun _ => none)
    model := rng.map (fun _ => none)
    side := rng.map (fun _ => none)
    haircut := rng.map (fun i => env.haircutV i)
    collatCurrency := rng.map (fun i => pychoice currencies "" (env.collatCcyK i))
    settlementCurrency := rng.map (fun i => pychoice currencies "" (env.settleCcyK i))
    collatId := rng.map (fun i => (instPair i).1)
    collatDesc := rng.map (fun i => (instPair i).2)
    collatNotional := rng.map (fun i => env.collatNotionalV i)
    collatType := rng.map (fun i => pychoice collat_types "" (env.collatTypeK i))
    fundingLegType := rng.map (fun i => pychoice funding_leg_types "" (env.fundingTypeK i))
    fundingLegNotional := rng.map (fun i => env.fundingNotionalV i)
    fundingLegCurrency := rng.map (fun i => pychoice currencies "" (env.fundingCcyK i))
    fundingLegMargin := rng.map (fun i => env.fundingMarginV i)
    fundingLegFixingLabel := rng.map (fun _ => none)
    iaAmount := rng.map (fun _ => none)
    iaCcy := rng.map (fun _ => none)
    pxInception := rng.map (fun i => env.pxInceptionV i)
    pxInceptionClean := rng.map (fun i => env.pxInceptionCleanV i)
    pxFactorInception := rng.map (fun _ => none)
    sideFactor := rng.map (fun _ => (1 : Rat))
    fxPair := rng.map (fun i => pychoice fx_pairs "" (env.fxPairK i))
    fxPairFunding := rng.map (fun i => pychoice fx_pairs "" (env.fxPairFundingK i)) }

end FF

namespace FF

/-- Draw oracle for `Risk.generate_random_risks_from_trades_df`:
`date.today()`, `datetime.now()`, and one function per random/Faker draw
site, indexed by the row number. -/
structure RiskEnv where
  today : PyDate
  now : PyDateTime
  uuid : Nat → String
  tickNum : Nat → Nat
  issuerNum : Nat → Nat
  dtmK : Nat → Nat
  ageK : Nat → Nat
  tenorK : Nat → Nat
  calcMinK : Nat → Nat
  updMinK : Nat → Nat
  concV : Nat → Rat
  outstandingV : Nat → Rat
  fxSpotV : Nat → Rat
  fxSpotFundingV : Nat → Rat
  fxSpotEodV : Nat → Rat
  fundingV : Nat → Rat
  collateralV : Nat → Rat
  cashOutV : Nat → Rat
  accDailyV : Nat → Rat
  accProjV : Nat → Rat
  accRealV : Nat → Rat
  pxEodV : Nat → Rat
  pxLastV : Nat → Rat
  rmcV : Nat → Rat
  emcV : Nat → Rat
  finExpV : Nat → Rat
  fmtYmd : PyDate → String

/-- The column dict built by `Risk.generate_random_risks_from_trades_df`
(`src/models/fake_financing.py` lines 640-675), in the dict's key order.
`calculatedAt` holds the result of `date` arithmetic (the annotated type
is `datetime`, but the generated value is `base_date` minus a
minutes-`timedelta`, which is a `date`). -/
structure RiskCols where
  jobId : List String
  asOfDate : List PyDate
  snapId : List String
  id : List Nat
  tradeId : List String
  counterParty : List String
  collatId : List String
  collatDesc : List String
  collatConcentration : List Rat
  collatName : List String
  collatTicker : List String
  collatIssuer : List String
  outstandingAmt : List Rat
  dtm : List String
  age : List String
  tenor : List String
  fxSpot : List Rat
  fxSpotFunding : List Rat
  fxSpotEOD : List Rat
  fundingAmount : List Rat
  collateralAmount : List Rat
  cashOut : List Rat
  accrualDaily : List Rat
  accrualProjected : List Rat
  accrualRealised : List Rat
  pxEOD : List Rat
  pxLast : List Rat
  realizedMarginCall : List Rat
  expectedMarginCall : List Rat
  financingExposure : List Rat
  calculatedAt : List PyDate
  updatedAt : List PyDateTime

/-- `Risk.generate_random_risks_from_trades_df` of
`src/models/fake_financing.py` (lines 621-679): selects the five key
columns of the trades frame, vertically repeats them
`num_risks_per_trade` times (`pl.concat([trade_records] * n)`), and fills
every other column with `num_records = len(trade_records)` fresh draws. -/
def generate_random_risks_from_trades_df (env : RiskEnv)
    (trades_df : TradeCols) (num_risks_per_trade : Nat) : RiskCols :=
  let rep_id := rep_col num_risks_per_trade trades_df.id
  let rep_tradeId := rep_col num_risks_per_trade trades_df.tradeId
  let rep_counterParty := rep_col num_risks_per_trade trades_df.counterParty
  let rep_collatId := rep_col num_risks_per_trade trades_df.collatId
  let rep_collatDesc := rep_col num_risks_per_trade trades_df.collatDesc
  let num_records := rep_id.length
  let base_date := env.today
  let rng := List.range num_records
  { jobId := rng.map (fun i => env.uuid i)
    asOfDate := rng.map (fun _ => base_date)
    snapId := rng.map (fun _ => "RISK:" ++ env.fmtYmd base_date)
    id := rep_id
    tradeId := rep_tradeId
    counterParty := rep_counterParty
    collatId := rep_collatId
    collatDesc := rep_collatDesc
    collatConcentration := rng.map (fun i => env.concV i)
    collatName := rng.map (fun i => "Collateral_" ++ toString i)
    collatTicker := rng.map (fun i => "TICK_" ++ toString (env.tickNum i))
    collatIssuer := rng.map (fun i => "ISSUER_" ++ toString (env.issuerNum i))
    outstandingAmt := rng.map (fun i => env.outstandingV i)
    dtm := rng.map (fun i => toString (randint 1 365 (env.dtmK i)) ++ "D")
    age := rng.map (fun i => toString (randint 1 100 (env.ageK i)) ++ "D")
    tenor := rng.map (fun i => toString (randint 1 10 (env.tenorK i)) ++ "Y")
    fxSpot := rng.map (fun i => env.fxSpotV i)
    fxSpotFunding := rng.map (fun i => env.fxSpotFundingV i)
    fxSpotEOD := rng.map (fun i => env.fxSpotEodV i)
    fundingAmount := rng.map (fun i => env.fundingV i)
    collateralAmount := rng.map (fun i => env.collateralV i)
    cashOut := rng.map (fun i => env.cashOutV i)
    accrualDaily := rng.map (fun i => env.accDailyV i)
    accrualProjected := rng.map (fun i => env.accProjV i)
    accrualRealised := rng.map (fun i => env.accRealV i)
    pxEOD := rng.map (fun i => env.pxEodV i)
    pxLast := rng.map (fun i => env.pxLastV i)
    realizedMarginCall := rng.map (fun i => env.rmcV i)
    expectedMarginCall := rng.map (fun i => env.emcV i)
    financingExposure := rng.map (fun i => env.finExpV i)
    calculatedAt := rng.map (fun i =>
      date_sub_td base_date (timedelta_minutes (randint 0 60 (env.calcMinK i))))
    updatedAt := rng.map (fun i =>
      datetime_sub_td env.now (timedelta_minutes (randint 0 60 (env.updMinK i)))) }

/-- Draw oracle for `RiskMV.generate_random_risks_from_trades_df`. -/
structure RiskMVEnv where
  today : PyDate
  now : PyDateTime
  uuid : Nat → String
  portfolioNum : Nat → Nat
  instNum : Nat → Nat
  obligorNum : Nat → Nat
  buK : Nat → Nat
  sbuK : Nat → Nat
  ccyK : Nat → Nat
  tradeCcyK : Nat → Nat
  vcProductK : Nat → Nat
  vcGroupK : Nat → Nat
  tradeStatusK : Nat → Nat
  versionK : Nat → Nat
  updMinK : Nat → Nat
  calcMinK : Nat → Nat
  tradeDateK : Nat → Nat
  startDateK : Nat → Nat
  maturityDateK : Nat → Nat
  cashOutV : Nat → Rat
  projCashV : Nat → Rat
  realCashV : Nat → Rat
  notionalV : Nat → Rat
  underlyingCcyV : Nat → Rat
  underlyingAmtS : Nat → String

/-- The column dict built by `RiskMV.generate_random_risks_from_trades_df`
(`src/models/fake_financing.py` lines 503-531), in the dict's key order. -/
structure RiskMVCols where
  id : List String
  asOfDate : List PyDateTime
  updatedAt : List PyDateTime
  bu : List String
  sbu : List String
  portfolio : List String
  book : List String
  tradeId : List String
  ccy : List String
  tradeCcy : List String
  instrument : List String
  tradeStatus : List Nat
  version : List Rat
  cashOut : List Rat
  projectedCashOut : List Rat
  realisedCashOut : List Rat
  notional : List Rat
  vcProduct : List String
  vcProductGroup : List String
  counterparty : List String
  obligor : List String
  tradeDate : List PyDate
  startDate : List PyDate
  maturityDate : List PyDate
  underlyingCcy : List Rat
  underlyingAmount : List String
  calculatedAt : List PyDateTime

/-- `RiskMV.generate_random_risks_from_trades_df` of
`src/models/fake_financing.py` (lines 478-535): selects
`id, tradeId, counterParty, hmsBook` from the trades frame, vertically
repeats them `num_risks_per_trade` times, and fills the other columns with
`num_records = len(trade_records)` fresh draws. -/
def riskmv_generate_random_risks_from_trades_df (env : RiskMVEnv)
    (trades_df : TradeCols) (num_risks_per_trade : Nat) : RiskMVCols :=
  let rep_id := rep_col num_risks_per_trade trades_df.id
  let rep_tradeId := rep_col num_risks_per_trade trades_df.tradeId
  let rep_counterParty := rep_col num_risks_per_trade trades_df.counterParty
  let rep_hmsBook := rep_col num_risks_per_trade trades_df.hmsBook
  let num_records := rep_id.length
  let base_date := env.today
  let bus := ["Structured Index Products", "Cash Financing Sol",
    "Structured Commodity Products", "Structured Equity Products"]
  let sbus := ["RATES", "CREDIT", "FX_SPOT", "FX_FWD"]
  let currencies := ["USD", "EUR", "GBP", "JPY"]
  let vc_products := ["BOND", "SWAP", "FUTURE", "OPTION"]
  let vc_product_groups := ["RATES", "CREDIT", "FX", "EQUITY"]
  let rng := List.range num_records
  { id := rng.map (fun i => env.uuid i)
    asOfDate := rng.map (fun _ => datetime_combine_min base_date)
    updatedAt := rng.map (fun i =>
      datetime_sub_td env.now (timedelta_minutes (randint 0 60 (env.updMinK i))))
    bu := rng.map (fun i => pychoice bus "" (env.buK i))
    sbu := rng.map (fun i => pychoice sbus "" (env.sbuK i))
    portfolio := rng.map (fun i => "PORT_" ++ toString (env.portfolioNum i))
    book := rep_hmsBook
    tradeId := rep_tradeId
    ccy := rng.map (fun i => pychoice currencies "" (env.ccyK i))
    tradeCcy := rng.map (fun i => pychoice currencies "" (env.tradeCcyK i))
    instrument := rng.map (fun i => "INST_" ++ toString (env.instNum i))
    tradeStatus := rng.map (fun i => randint 0 3 (env.tradeStatusK i))
    version := rng.map (fun i => ((randint 1 5 (env.versionK i) : Nat) : Rat))
    cashOut := rng.map (fun i => env.cashOutV i)
    projectedCashOut := rng.map (fun i => env.projCashV i)
    realisedCashOut := rng.map (fun i => env.realCashV i)
    notional := rng.map (fun i => env.notionalV i)
    vcProduct := rng.map (fun i => pychoice vc_products "" (env.vcProductK i))
    vcProductGroup := rng.map (fun i => pychoice vc_product_groups "" (env.vcGroupK i))
    counterparty := rep_counterParty
    obligor := rng.map (fun i => "OBL_" ++ toString (env.obligorNum i))
    tradeDate := rng.map (fun i =>
      date_sub_td env.today (timedelta_days (randint 0 365 (env.tradeDateK i))))
    startDate := rng.map (fun i =>
      date_sub_td env.today (timedelta_days (randint 0 365 (env.startDateK i))))
    maturityDate := rng.map (fun i =>
      date_add_td env.today (timedelta_days (randint 30 730 (env.maturityDateK i))))
    underlyingCcy := rng.map (fun i => env.underlyingCcyV i)
    underlyingAmount := rng.map (fun i => env.underlyingAmtS i)
    calculatedAt := rng.map (fun i =>
      datetime_sub_td env.now (timedelta_minutes (randint 0 60 (env.calcMinK i)))) }

end FF

/-- `random.choice` over a non-empty list returns one of its elements. -/
theorem pychoice_mem {α : Type} (xs : List α) (d : α) (k : Nat) (h : xs ≠ []) :
    pychoice xs d k ∈ xs := by
  have hl : 0 < xs.length := List.length_pos.mpr h
  have hk : k % xs.length < xs.length := Nat.mod_lt _ hl
  rw [pychoice, List.getD_eq_getElem?_getD, List.getElem?_eq_getElem hk,
    Option.getD_some]
  exact List.getElem_mem hk

/-- Vertical repetition multiplies the row count. -/
theorem length_rep_col {α : Type} (n : Nat) (c : List α) :
    (rep_col n c).length = n * c.length := by
  induction n with
  | zero => simp [rep_col]
  | succ m ih =>
    rw [rep_col, List.replicate_succ, List.flatten_cons, List.length_append,
      show List.flatten (List.replicate m c) = rep_col m c from rfl, ih]
    ring

/-- Vertical repetition multiplies every element's multiplicity. -/
theorem count_rep_col {α : Type} [DecidableEq α] (n : Nat) (c : List α)
    (k : α) : (rep_col n c).count k = n * c.count k := by
  induction n with
  | zero => simp [rep_col]
  | succ m ih =>
    rw [rep_col, List.replicate_succ, List.flatten_cons, List.count_append,
      show List.flatten (List.replicate m c) = rep_col m c from rfl, ih]
    ring

/-- Row `i` of a vertically repeated column is row `i mod length` of the
original column. -/
theorem rep_col_getElem? {α : Type} (n : Nat) (xs : List α) (i : Nat)
    (h : i < n * xs.length) : (rep_col n xs)[i]? = xs[i % xs.length]? := by
  induction n generalizing i with
  | zero => simp at h
  | succ m ih =>
    rw [rep_col, List.replicate_succ, List.flatten_cons]
    by_cases hi : i < xs.length
    · rw [List.getElem?_append_left hi, Nat.mod_eq_of_lt hi]
    · have hle : xs.length ≤ i := Nat.le_of_not_lt hi
      rw [List.getElem?_append_right hle,
        show List.flatten (List.replicate m xs) = rep_col m xs from rfl]
      have h2 : i - xs.length < m * xs.length := by
        rw [Nat.succ_mul, Nat.add_comm] at h
        exact (Nat.sub_lt_iff_lt_add hle).mpr h
      rw [ih _ h2, (Nat.mod_eq_sub_mod hle).symm]

/-- Row `i` of a freshly generated column is the draw at index `i`. -/
theorem range_map_getElem? {α : Type} (f : Nat → α) (n i : Nat) (h : i < n) :
    ((List.range n).map f)[i]? = some (f i) := by
  rw [List.getElem?_map, List.getElem?_range h, Option.map_some']

/-- **C2.** Referential integrity of dependent-entity generation: every
`counterParty` of a generated trades batch is a name of the counterparty
reference batch, every `(collatId, collatDesc)` is an `(id, name)` pair of
the instrument reference batch, every `hmsBook` is a name of the books
reference batch; and every record of a generated risks batch carries
`id, tradeId, counterParty, collatId, collatDesc` copied verbatim from one
row of the trades batch it was generated from. -/
theorem c2_referential_integrity (env : FF.TradeEnv) (n : Nat)
    (cps : FF.CounterpartyDF) (insts : FF.InstrumentDF) (books : FF.BooksDF)
    (hcp : cps.name ≠ []) (hzip : insts.id.zip insts.name ≠ [])
    (hbk : books.name ≠ [])
    (tc : FF.TradeCols) (N : Nat) (envR : FF.RiskEnv)
    (hlen1 : tc.tradeId.length = tc.id.length)
    (hlen2 : tc.counterParty.length = tc.id.length)
    (hlen3 : tc.collatId.length = tc.id.length)
    (hlen4 : tc.collatDesc.length = tc.id.length) :
    (∀ x ∈ (FF.generate_random_trades_df env n (some cps) (some insts)
        (some books)).counterParty, x ∈ cps.name)
    ∧ (∀ x ∈ (FF.generate_random_trades_df env n (some cps) (some insts)
        (some books)).hmsBook, x ∈ books.name)
    ∧ (∀ i, i < n → ∃ pr, pr ∈ insts.id.zip insts.name
        ∧ (FF.generate_random_trades_df env n (some cps) (some insts)
            (some books)).collatId[i]? = some pr.1
        ∧ (FF.generate_random_trades_df env n (some cps) (some insts)
            (some books)).collatDesc[i]? = some pr.2)
    ∧ (∀ i, i < N * tc.id.length → ∃ j, j < tc.id.length
        ∧ (FF.generate_random_risks_from_trades_df envR tc N).id[i]?
            = tc.id[j]?
        ∧ (FF.generate_random_risks_from_trades_df envR tc N).tradeId[i]?
            = tc.tradeId[j]?
        ∧ (FF.generate_random_risks_from_trades_df envR tc N).counterParty[i]?
            = tc.counterParty[j]?
        ∧ (FF.generate_random_risks_from_trades_df envR tc N).collatId[i]?
            = tc.collatId[j]?
        ∧ (FF.generate_random_risks_from_trades_df envR tc N).collatDesc[i]?
            = tc.collatDesc[j]?) := by
  refine ⟨?_, ?_, ?_, ?_⟩
  · intro x hx
    simp only [FF.generate_random_trades_df] at hx
    rw [List.mem_map] at hx
    obtain ⟨i, -, rfl⟩ := hx
    exact pychoice_mem _ _ _ hcp
  · intro x hx
    simp only [FF.generate_random_trades_df] at hx
    rw [List.mem_map] at hx
    obtain ⟨i, -, rfl⟩ := hx
    exact pychoice_mem _ _ _ hbk
  · intro i hi
    refine ⟨pychoice (insts.id.zip insts.name) ("", "") (env.instK i),
      pychoice_mem _ _ _ hzip, ?_, ?_⟩
    · simp only [FF.generate_random_trades_df]
      rw [range_map_getElem? _ _ _ hi]
    · simp only [FF.generate_random_trades_df]
      rw [range_map_getElem? _ _ _ hi]
  · intro i hi
    have hP : 0 < tc.id.length := by
      rcases Nat.eq_zero_or_pos tc.id.length with h0 | h0
      · rw [h0, Nat.mul_zero] at hi; omega
      · exact h0
    refine ⟨i % tc.id.length, Nat.mod_lt _ hP, ?_, ?_, ?_, ?_, ?_⟩
    · simp only [FF.generate_random_risks_from_trades_df]
      exact rep_col_getElem? N tc.id i hi
    · simp only [FF.generate_random_risks_from_trades_df]
      rw [rep_col_getElem? N tc.tradeId i (by rw [hlen1]; exact hi), hlen1]
    · simp only [FF.generate_random_risks_from_trades_df]
      rw [rep_col_getElem? N tc.counterParty i (by rw [hlen2]; exact hi),
        hlen2]
    · simp only [FF.generate_random_risks_from_trades_df]
      rw [rep_col_getElem? N tc.collatId i (by rw [hlen3]; exact hi), hlen3]
    · simp only [FF.generate_random_risks_from_trades_df]
      rw [rep_col_getElem? N tc.collatDesc i (by rw [hlen4]; exact hi),
        hlen4]

/-- **C3.** Fan-out: over a trades batch of `P` rows, generation with
`num_risks_per_trade = N ≥ 1` yields exactly `N * P` output records (shown
on the copied key column and on a freshly drawn column, for both `Risk`
and `RiskMV`), every value's multiplicity in the copied key column is `N`
times its multiplicity among the parents, and when the parent keys are
distinct each parent key appears exactly `N` times. -/
theorem c3_fanout_exactly_n_per_parent (tc : FF.TradeCols) (N : Nat)
    (envR : FF.RiskEnv) (envM : FF.RiskMVEnv) (_hN : 1 ≤ N) :
    (FF.generate_random_risks_from_trades_df envR tc N).id.length
        = N * tc.id.length
    ∧ (FF.generate_random_risks_from_trades_df envR tc N).jobId.length
        = N * tc.id.length
    ∧ (∀ k, ((FF.generate_random_risks_from_trades_df envR tc N).id).count k
        = N * tc.id.count k)
    ∧ (tc.id.Nodup → ∀ k ∈ tc.id,
        ((FF.generate_random_risks_from_trades_df envR tc N).id).count k = N)
    ∧ (FF.riskmv_generate_random_risks_from_trades_df envM tc N).id.length
        = N * tc.id.length
    ∧ (FF.riskmv_generate_random_risks_from_trades_df envM tc N).tradeId.length
        = N * tc.tradeId.length
    ∧ (∀ k, ((FF.riskmv_generate_random_risks_from_trades_df envM tc
        N).tradeId).count k = N * tc.tradeId.count k)
    ∧ (tc.tradeId.Nodup → ∀ k ∈ tc.tradeId,
        ((FF.riskmv_generate_random_risks_from_trades_df envM tc
          N).tradeId).count k = N) := by
  refine ⟨?_, ?_, ?_, ?_, ?_, ?_, ?_, ?_⟩
  · simp only [FF.generate_random_risks_from_trades_df]
    exact length_rep_col N tc.id
  · simp only [FF.generate_random_risks_from_trades_df]
    rw [List.length_map, List.length_range, length_rep_col]
  · intro k
    simp only [FF.generate_random_risks_from_trades_df]
    exact count_rep_col N tc.id k
  · intro hnd k hk
    simp only [FF.generate_random_risks_from_trades_df]
    rw [count_rep_col, List.count_eq_one_of_mem hnd hk, Nat.mul_one]
  · simp only [FF.riskmv_generate_random_risks_from_trades_df]
    rw [List.length_map, List.length_range, length_rep_col]
  · simp only [FF.riskmv_generate_random_risks_from_trades_df]
    exact length_rep_col N tc.tradeId
  · intro k
    simp only [FF.riskmv_generate_random_risks_from_trades_df]
    exact count_rep_col N tc.tradeId k
  · intro hnd k hk
    simp only [FF.riskmv_generate_random_risks_from_trades_df]
    rw [count_rep_col, List.count_eq_one_of_mem hnd hk, Nat.mul_one]

/-- **C10.** Every `calculatedAt` value generated by
`Risk.generate_random_risks_from_trades_df` equals `date.today()`:
`base_date` is a `date`, and CPython `date - timedelta` ignores the
sub-day part of the delta, so subtracting `timedelta(minutes=m)` with
`0 ≤ m ≤ 60` changes nothing — the dedup discriminant is identical across
the whole batch. -/
theorem c10_calculatedAt_equals_generation_date (envR : FF.RiskEnv)
    (tc : FF.TradeCols) (N : Nat) :
    ∀ x ∈ (FF.generate_random_risks_from_trades_df envR tc N).calculatedAt,
      x = envR.today := by
  intro x hx
  simp only [FF.generate_random_risks_from_trades_df] at hx
  rw [List.mem_map] at hx
  obtain ⟨i, -, rfl⟩ := hx
  show date_sub_td envR.today
    (timedelta_minutes (randint 0 60 (envR.calcMinK i))) = envR.today
  have hdiv : randint 0 60 (envR.calcMinK i) * 60 / 86400 = 0 := by
    unfold randint
    omega
  simp [date_sub_td, timedelta_minutes, hdiv]

/-- A concrete one-row counterparty reference batch. -/
def exCounterpartyDF : FF.CounterpartyDF := ⟨["CP1"]⟩

/-- A concrete one-row instrument reference batch. -/
def exInstrumentDF : FF.InstrumentDF := ⟨["I1"], ["N1"]⟩

/-- A concrete one-row books reference batch. -/
def exBooksDF : FF.BooksDF := ⟨["B1"]⟩

/-- A concrete draw oracle for the trade generator. -/
def exTradeEnv : FF.TradeEnv where
  today := 0
  uuid := fun _ => "u"
  uniqueId := fun i => i
  tradeIdNum := fun _ => 0
  treatsNum := fun _ => 0
  projNum := fun _ => 0
  lastName := fun _ => "x"
  projectLow := fun _ => true
  statusK := fun _ => 0
  ptsK := fun _ => 0
  bookK := fun _ => 0
  productTypeK := fun _ => 0
  productSubK := fun _ => 0
  maturityOpenK := fun _ => 0
  portfolioK := fun _ => 0
  cpK := fun _ => 0
  instK := fun _ => 0
  collatCcyK := fun _ => 0
  settleCcyK := fun _ => 0
  collatTypeK := fun _ => 0
  fundingTypeK := fun _ => 0
  fundingCcyK := fun _ => 0
  fxPairK := fun _ => 0
  fxPairFundingK := fun _ => 0
  tradeDtDaysK := fun _ => 0
  maturityDaysK := fun _ => 0
  execHoursK := fun _ => 0
  execMinutesK := fun _ => 0
  haircutV := fun _ => 0
  collatNotionalV := fun _ => 0
  fundingNotionalV := fun _ => 0
  fundingMarginV := fun _ => 0
  pxInceptionV := fun _ => 0
  pxInceptionCleanV := fun _ => 0
  fmtYmdDash := fun _ => "d"
  fmtYmd := fun _ => "d"
  fmtDT := fun _ => "t"

/-- A concrete draw oracle for the risk generator. -/
def exRiskEnv : FF.RiskEnv where
  today := 0
  now := 0
  uuid := fun _ => "u"
  tickNum := fun _ => 0
  issuerNum := fun _ => 0
  dtmK := fun _ => 0
  ageK := fun _ => 0
  tenorK := fun _ => 0
  calcMinK := fun _ => 0
  updMinK := fun _ => 0
  concV := fun _ => 0
  outstandingV := fun _ => 0
  fxSpotV := fun _ => 0
  fxSpotFundingV := fun _ => 0
  fxSpotEodV := fun _ => 0
  fundingV := fun _ => 0
  collateralV := fun _ => 0
  cashOutV := fun _ => 0
  accDailyV := fun _ => 0
  accProjV := fun _ => 0
  accRealV := fun _ => 0
  pxEodV := fun _ => 0
  pxLastV := fun _ => 0
  rmcV := fun _ => 0
  emcV := fun _ => 0
  finExpV := fun _ => 0
  fmtYmd := fun _ => "d"

/-- A concrete draw oracle for the RiskMV generator. -/
def exRiskMVEnv : FF.RiskMVEnv where
  today := 0
  now := 0
  uuid := fun _ => "u"
  portfolioNum := fun _ => 0
  instNum := fun _ => 0
  obligorNum := fun _ => 0
  buK := fun _ => 0
  sbuK := fun _ => 0
  ccyK := fun _ => 0
  tradeCcyK := fun _ => 0
  vcProductK := fun _ => 0
  vcGroupK := fun _ => 0
  tradeStatusK := fun _ => 0
  versionK := fun _ => 0
  updMinK := fun _ => 0
  calcMinK := fun _ => 0
  tradeDateK := fun _ => 0
  startDateK := fun _ => 0
  maturityDateK := fun _ => 0
  cashOutV := fun _ => 0
  projCashV := fun _ => 0
  realCashV := fun _ => 0
  notionalV := fun _ => 0
  underlyingCcyV := fun _ => 0
  underlyingAmtS := fun _ => "0"

/-- A concrete one-row trades batch generated from the example reference
batches. -/
def exTrades : FF.TradeCols :=
  FF.generate_random_trades_df exTradeEnv 1 (some exCounterpartyDF)
    (some exInstrumentDF) (some exBooksDF)

/-- Witness for C2 at the concrete one-row batches: the single generated
trade's counterparty is a name of the counterparty reference batch. -/
theorem c2_referential_integrity_witness :
    pychoice exCounterpartyDF.name "" (exTradeEnv.cpK 0)
      ∈ exCounterpartyDF.name :=
  (c2_referential_integrity exTradeEnv 1 exCounterpartyDF exInstrumentDF
    exBooksDF (by decide) (by decide) (by decide) exTrades 1 exRiskEnv
    rfl rfl rfl rfl).1
    (pychoice exCounterpartyDF.name "" (exTradeEnv.cpK 0)) (by decide)

/-- Witness for C3 at the concrete one-row trades batch with fan-out 2. -/
theorem c3_fanout_witness :
    (FF.generate_random_risks_from_trades_df exRiskEnv exTrades 2).id.length
      = 2 * exTrades.id.length :=
  (c3_fanout_exactly_n_per_parent exTrades 2 exRiskEnv exRiskMVEnv
    (by decide)).1

/-- Witness for C10 at the concrete one-row trades batch. -/
theorem c10_calculatedAt_witness :
    date_sub_td (0 : Int) (timedelta_minutes (randint 0 60 0))
      = exRiskEnv.today :=
  c10_calculatedAt_equals_generation_date exRiskEnv exTrades 1
    (date_sub_td (0 : Int) (timedelta_minutes (randint 0 60 0))) (by decide)
